import Mathlib

/-!
Shallow embedding of `src/dev_frontend.py`: the resilient API client
(`APIClient.test_connection`, `APIClient.send_message`) and the message
dispatch flow of `main` (the chat-input block, lines 220-253).

Network effects are modelled by an explicit event stream: `events i` is the
outcome the i-th HTTP attempt of a call would observe (a response with a
status and body, a `requests.exceptions.RequestException`, or some other
Python exception).  `response.json()` failing on an unparseable body is
modelled as raising a `ValueError` (i.e. not a `RequestException`), so it is
caught by the broad `except Exception` clause of `send_message`.
Each run records the value returned by the Python function, the number of
loop iterations entered (attempts used), and the total time slept in
`time.sleep(RETRY_DELAY)` calls.
-/

namespace DevFrontend

/-- `DEFAULT_ERROR_MESSAGE` constant (line 9). -/
def DEFAULT_ERROR_MESSAGE : String := "An error occurred while communicating with the API"

/-- `RETRY_ATTEMPTS` constant (line 10). -/
def RETRY_ATTEMPTS : Nat := 3

/-- `RETRY_DELAY` constant, in time-units/seconds (line 11). -/
def RETRY_DELAY : Nat := 1

/-- Python `str.rstrip('/')`: remove every trailing `'/'` character. -/
def rstripSlashes (s : String) : String :=
  String.mk ((s.data.reverse.dropWhile (fun c => c == '/')).reverse)

/-- The `APIClient` object state: `base_url` and `sender_id` (lines 14-16). -/
structure APIClient where
  base_url : String
  sender_id : String
deriving Repr, DecidableEq

/-- `APIClient.__init__` (lines 14-16): the sender id is the fresh
`str(uuid.uuid4())` value, passed in here as a parameter. -/
def APIClient.init (base sid : String) : APIClient :=
  ⟨rstripSlashes base, sid⟩

/-- URL of the probe request, `f"{self.base_url}/test"` (line 23). -/
def APIClient.testUrl (c : APIClient) : String := c.base_url ++ "/test"

/-- URL of the send request, `f"{self.base_url}/response"` (line 48). -/
def APIClient.responseUrl (c : APIClient) : String := c.base_url ++ "/response"

/-- The JSON body of a received HTTP response as seen by `response.json()`:
either a parsed object (string-valued fields suffice for this API) or an
unparseable body, in which case `response.json()` raises a `ValueError`
carrying `msg`. -/
inductive JsonBody where
  | obj (fields : List (String × String))
  | invalid (msg : String)
deriving Repr, DecidableEq

/-- Outcome of one HTTP attempt inside `send_message`, classified exactly as
the `try/except` structure of lines 36-66 classifies it:
`response` = `requests.get` returned a response with the given status and
body; `requestExc` = `requests.get` raised a
`requests.exceptions.RequestException` (connect error, timeout);
`otherExc` = some other exception was raised (e.g. `json.dumps` failing on
`customer_info`), with `str(e) = msg`. -/
inductive SendEvent where
  | response (status : Nat) (body : JsonBody)
  | requestExc
  | otherExc (msg : String)
deriving Repr, DecidableEq

/-- The dictionary returned by `send_message`: each return site produces a
singleton dict holding either the key `"response"` or the key `"error"`.
`respField`/`errField` are the values at those keys when present. -/
structure SendDict where
  respField : Option String
  errField : Option String
deriving Repr, DecidableEq

/-- The dict `{"response": v}` (line 57). -/
def respDict (v : String) : SendDict := ⟨some v, none⟩

/-- The dict `{"error": m}` (lines 59, 66, 67). -/
def errDict (m : String) : SendDict := ⟨none, some m⟩

/-- What one iteration of the `send_message` loop does with its attempt's
outcome: `retry` = the `except RequestException` branch was taken (sleep if
not last attempt, then `continue`); `done d` = the function returned `d`.
`response.raise_for_status()` (line 52) raises `requests.exceptions.HTTPError`
(a `RequestException`) exactly when `400 ≤ status < 600`. -/
inductive AttemptStep where
  | retry
  | done (d : SendDict)
deriving Repr, DecidableEq

/-- One iteration of the `send_message` loop body (lines 36-66). -/
def send_attempt : SendEvent → AttemptStep
  | .requestExc => .retry
  | .otherExc msg => .done (errDict ("Error: " ++ msg))
  | .response status body =>
    if 400 ≤ status ∧ status < 600 then
      .retry
    else
      match body with
      | .invalid msg => .done (errDict ("Error: " ++ msg))
      | .obj fields =>
        match fields.lookup "result" with
        | some r => .done (respDict r)
        | none => .done (errDict "Invalid response format from API")

/-- Result of running `send_message`: the returned dict, the number of loop
iterations entered, and the total time-units slept between attempts. -/
structure SendRun where
  dict : SendDict
  attemptsUsed : Nat
  delays : Nat
deriving Repr, DecidableEq

/-- The `for attempt in range(RETRY_ATTEMPTS)` loop of `send_message`
(lines 35-67), run over the remaining attempt indices: falling off the loop
returns `{"error": DEFAULT_ERROR_MESSAGE}`; a retry sleeps `RETRY_DELAY`
only when `attempt < RETRY_ATTEMPTS - 1` (lines 62-63). -/
def sendLoop (events : Nat → SendEvent) : List Nat → SendRun
  | [] => ⟨errDict DEFAULT_ERROR_MESSAGE, 0, 0⟩
  | a :: rest =>
    match send_attempt (events a) with
    | .done d => ⟨d, 1, 0⟩
    | .retry =>
      let r := sendLoop events rest
      ⟨r.dict, r.attemptsUsed + 1,
        r.delays + (if a < RETRY_ATTEMPTS - 1 then RETRY_DELAY else 0)⟩

/-- `APIClient.send_message` (lines 33-67), as a function of the attempt
event stream. -/
def send_message (events : Nat → SendEvent) : SendRun :=
  sendLoop events (List.range RETRY_ATTEMPTS)

/-- Outcome of one HTTP attempt inside `test_connection` (lines 20-30):
a response was received, or `requests.get` raised a
`requests.exceptions.RequestException`. -/
inductive ProbeEvent where
  | response (status : Nat)
  | requestExc
deriving Repr, DecidableEq

/-- Result of running `test_connection`: the returned boolean, attempts
entered, and total time slept. -/
structure ProbeRun where
  result : Bool
  attemptsUsed : Nat
  delays : Nat
deriving Repr, DecidableEq

/-- The `for attempt in range(RETRY_ATTEMPTS)` loop of `test_connection`
(lines 20-31): a received response returns `status == 200` immediately;
a `RequestException` sleeps (if not the last attempt) and continues; falling
off the loop returns `False`. -/
def probeLoop (events : Nat → ProbeEvent) : List Nat → ProbeRun
  | [] => ⟨false, 0, 0⟩
  | a :: rest =>
    match events a with
    | .response status => ⟨decide (status = 200), 1, 0⟩
    | .requestExc =>
      let r := probeLoop events rest
      ⟨r.result, r.attemptsUsed + 1,
        r.delays + (if a < RETRY_ATTEMPTS - 1 then RETRY_DELAY else 0)⟩

/-- `APIClient.test_connection` (lines 18-31), as a function of the attempt
event stream. -/
def test_connection (events : Nat → ProbeEvent) : ProbeRun :=
  probeLoop events (List.range RETRY_ATTEMPTS)

/-- A transcript entry, the dicts appended to `st.session_state.messages`
(lines 227-231, 247-251). -/
structure ChatMessage where
  role : String
  content : String
  timestamp : String
deriving Repr, DecidableEq

/-- The per-session state touched by the dispatch flow: `messages`,
`api_url`, `api_status` (the ConnectionStatus) and `customer_info`
(lines 69-80). -/
structure SessionState where
  messages : List ChatMessage
  api_url : String
  api_status : Bool
  customer_info : List (String × String)
deriving Repr, DecidableEq

/-- The assistant-message content computed at lines 242-245:
`f"🚫 {response['error']}"` when the dict has key `"error"`, else
`response.get("response", "No response received")`. -/
def dispatchContent (d : SendDict) : String :=
  match d.errField with
  | some e => "🚫 " ++ e
  | none => d.respField.getD "No response received"

/-- Result of one dispatch: the updated session state, and whether
`send_message` was invoked. -/
structure DispatchRun where
  state : SessionState
  sendCalled : Bool
deriving Repr, DecidableEq

/-- The dispatch flow: the body of `main`'s chat-input block (lines
220-253), run when `st.chat_input` delivered the text `prompt`.  The user
message is appended unconditionally (lines 226-231); only if
`st.session_state.api_status` is truthy is `send_message` called and the
assistant message appended (lines 234-251).  `ts1`, `ts2` are the two
`datetime.now()` timestamp strings. -/
def dispatch (st : SessionState) (prompt ts1 ts2 : String)
    (events : Nat → SendEvent) : DispatchRun :=
  let st1 : SessionState :=
    { st with messages := st.messages ++ [⟨"user", prompt, ts1⟩] }
  if st1.api_status then
    let r := send_message events
    ⟨{ st1 with
        messages := st1.messages ++ [⟨"assistant", dispatchContent r.dict, ts2⟩] },
      true⟩
  else
    ⟨st1, false⟩

/-- The three attempt indices the retry loops iterate over. -/
theorem range_RETRY_ATTEMPTS : List.range RETRY_ATTEMPTS = [0, 1, 2] := rfl

/-- Claim C2: if the first attempt of a send hits an unexpected
non-transport failure — the response body is unparseable JSON on a
non-error HTTP status, or any exception that is not a `RequestException` —
then `send_message` returns the protocol-error dict
`{"error": "Error: " + str(e)}` immediately: exactly one attempt is used and
no delay is incurred. -/
theorem C2_protocol_error_immediate (events : Nat → SendEvent)
    (status : Nat) (msg : String)
    (hs : ¬(400 ≤ status ∧ status < 600))
    (h0 : events 0 = SendEvent.response status (JsonBody.invalid msg) ∨
          events 0 = SendEvent.otherExc msg) :
    send_message events = ⟨errDict ("Error: " ++ msg), 1, 0⟩ := by
  rcases h0 with h0 | h0 <;>
    simp [send_message, range_RETRY_ATTEMPTS, sendLoop, h0, send_attempt, hs]

/-- Witness for C2 at a concrete event stream: status 200, body not JSON. -/
theorem C2_witness :
    send_message (fun _ => SendEvent.response 200 (JsonBody.invalid "boom"))
      = ⟨errDict ("Error: " ++ "boom"), 1, 0⟩ :=
  C2_protocol_error_immediate _ 200 "boom" (by decide) (Or.inl rfl)

/-- Claim C3: a 200 response whose parsed JSON object has no `"result"` key
makes `send_message` return `{"error": "Invalid response format from API"}`
after exactly one attempt, with no retry and no delay. -/
theorem C3_missing_result_no_retry (events : Nat → SendEvent)
    (fields : List (String × String))
    (h0 : events 0 = SendEvent.response 200 (JsonBody.obj fields))
    (hmiss : fields.lookup "result" = none) :
    send_message events = ⟨errDict "Invalid response format from API", 1, 0⟩ := by
  simp [send_message, range_RETRY_ATTEMPTS, sendLoop, h0, send_attempt, hmiss]

/-- Witness for C3 at a concrete event stream: 200 with body `{}`. -/
theorem C3_witness :
    send_message (fun _ => SendEvent.response 200 (JsonBody.obj []))
      = ⟨errDict "Invalid response format from API", 1, 0⟩ :=
  C3_missing_result_no_retry _ [] rfl rfl

/-- Claim C4: a response whose HTTP status signals failure (4xx/5xx, i.e.
`raise_for_status` raises `HTTPError`, a `RequestException`) is treated like
a transport failure: (a) the attempt takes the retry branch regardless of the
body; (b) it does not return immediately — a failing status on attempt 1
followed by a good response on attempt 2 yields that success after 2 attempts
and 1 delay of `RETRY_DELAY`; (c) failing statuses on all attempts exhaust
the ceiling of 3 attempts with 2 delays and return the generic error. -/
theorem C4_http_failure_retried (events : Nat → SendEvent) (status : Nat)
    (v : String) (hs : 400 ≤ status ∧ status < 600) :
    (∀ body, send_attempt (SendEvent.response status body) = AttemptStep.retry) ∧
    (events 0 = SendEvent.response status (JsonBody.obj []) →
      events 1 = SendEvent.response 200 (JsonBody.obj [("result", v)]) →
      send_message events = ⟨respDict v, 2, 1⟩) ∧
    ((∀ i, i < RETRY_ATTEMPTS → events i = SendEvent.response status (JsonBody.obj [])) →
      send_message events = ⟨errDict DEFAULT_ERROR_MESSAGE, 3, 2⟩) := by
  refine ⟨fun body => by simp [send_attempt, hs], fun h0 h1 => ?_, fun hall => ?_⟩
  · simp [send_message, range_RETRY_ATTEMPTS, sendLoop, h0, h1, send_attempt, hs,
      RETRY_ATTEMPTS, RETRY_DELAY]
  · have h0 := hall 0 (by decide)
    have h1 := hall 1 (by decide)
    have h2 := hall 2 (by decide)
    simp [send_message, range_RETRY_ATTEMPTS, sendLoop, h0, h1, h2, send_attempt, hs,
      RETRY_ATTEMPTS, RETRY_DELAY]

/-- Witness for C4 at a concrete event stream: all attempts return 500. -/
theorem C4_witness :
    send_message (fun _ => SendEvent.response 500 (JsonBody.obj []))
      = ⟨errDict DEFAULT_ERROR_MESSAGE, 3, 2⟩ :=
  (C4_http_failure_retried (fun _ => SendEvent.response 500 (JsonBody.obj []))
    500 "" (by decide)).2.2 (fun _ _ => rfl)

/-- Claim C5: N transport failures (N < 3) followed by a successful attempt
give the success outcome of attempt N+1 with exactly N delays of
`RETRY_DELAY`: `send_message` returns `{"response": v}` and
`test_connection` returns `True`, each after N+1 attempts and N delays (in
particular a probe succeeding on its first attempt incurs no delay). -/
theorem C5_n_failures_then_success (N : Nat) (hN : N < 3)
    (events : Nat → SendEvent) (pevents : Nat → ProbeEvent) (v : String)
    (hf : ∀ i, i < N → events i = SendEvent.requestExc)
    (hsucc : events N = SendEvent.response 200 (JsonBody.obj [("result", v)]))
    (pf : ∀ i, i < N → pevents i = ProbeEvent.requestExc)
    (psucc : pevents N = ProbeEvent.response 200) :
    send_message events = ⟨respDict v, N + 1, N * RETRY_DELAY⟩ ∧
    test_connection pevents = ⟨true, N + 1, N * RETRY_DELAY⟩ := by
  interval_cases N
  · constructor <;>
      simp [send_message, test_connection, range_RETRY_ATTEMPTS, sendLoop, probeLoop,
        hsucc, psucc, send_attempt, RETRY_ATTEMPTS, RETRY_DELAY]
  · constructor <;>
      simp [send_message, test_connection, range_RETRY_ATTEMPTS, sendLoop, probeLoop,
        hsucc, psucc, send_attempt, RETRY_ATTEMPTS, RETRY_DELAY,
        hf 0 (by omega), pf 0 (by omega)]
  · constructor <;>
      simp [send_message, test_connection, range_RETRY_ATTEMPTS, sendLoop, probeLoop,
        hsucc, psucc, send_attempt, RETRY_ATTEMPTS, RETRY_DELAY,
        hf 0 (by omega), hf 1 (by omega), pf 0 (by omega), pf 1 (by omega)]

/-- Witness for C5 at N = 1: one timeout, then success on attempt 2. -/
theorem C5_witness :
    send_message (fun i => if i = 0 then SendEvent.requestExc
        else SendEvent.response 200 (JsonBody.obj [("result", "hi there")]))
      = ⟨respDict "hi there", 2, 1 * RETRY_DELAY⟩ ∧
    test_connection (fun i => if i = 0 then ProbeEvent.requestExc
        else ProbeEvent.response 200)
      = ⟨true, 2, 1 * RETRY_DELAY⟩ :=
  C5_n_failures_then_success 1 (by decide) _ _ "hi there"
    (fun i hi => by interval_cases i; rfl) rfl
    (fun i hi => by interval_cases i; rfl) rfl

/-- Claim C6: when every attempt fails with a transport failure,
`test_connection` returns `False` and `send_message` returns
`{"error": DEFAULT_ERROR_MESSAGE}` (the exact generic message), each after
exactly 3 attempts (only the first 3 events are ever consulted, so this
covers every N ≥ 3). -/
theorem C6_exhaustion (events : Nat → SendEvent) (pevents : Nat → ProbeEvent)
    (hf : ∀ i, i < RETRY_ATTEMPTS → events i = SendEvent.requestExc)
    (pf : ∀ i, i < RETRY_ATTEMPTS → pevents i = ProbeEvent.requestExc) :
    send_message events = ⟨errDict DEFAULT_ERROR_MESSAGE, 3, 2 * RETRY_DELAY⟩ ∧
    test_connection pevents = ⟨false, 3, 2 * RETRY_DELAY⟩ := by
  constructor <;>
    simp [send_message, test_connection, range_RETRY_ATTEMPTS, sendLoop, probeLoop,
      send_attempt, RETRY_ATTEMPTS, RETRY_DELAY,
      hf 0 (by decide), hf 1 (by decide), hf 2 (by decide),
      pf 0 (by decide), pf 1 (by decide), pf 2 (by decide)]

/-- Witness for C6 at concrete event streams: every attempt times out. -/
theorem C6_witness :
    send_message (fun _ => SendEvent.requestExc)
      = ⟨errDict DEFAULT_ERROR_MESSAGE, 3, 2 * RETRY_DELAY⟩ ∧
    test_connection (fun _ => ProbeEvent.requestExc)
      = ⟨false, 3, 2 * RETRY_DELAY⟩ :=
  C6_exhaustion _ _ (fun _ _ => rfl) (fun _ _ => rfl)

/-- Claim C8: on any attempt where an HTTP response is received (after k
transport failures, k < 3), `test_connection` returns immediately — no
further attempts and no further delay — with `True` exactly when the status
is 200; in particular a non-200 response on the first attempt (k = 0) yields
`False` after 1 attempt with no retry. -/
theorem C8_probe_response_immediate (k : Nat) (hk : k < 3)
    (pevents : Nat → ProbeEvent) (status : Nat)
    (hf : ∀ i, i < k → pevents i = ProbeEvent.requestExc)
    (hr : pevents k = ProbeEvent.response status) :
    test_connection pevents = ⟨decide (status = 200), k + 1, k * RETRY_DELAY⟩ := by
  interval_cases k
  · simp [test_connection, range_RETRY_ATTEMPTS, probeLoop, hr,
      RETRY_ATTEMPTS, RETRY_DELAY]
  · simp [test_connection, range_RETRY_ATTEMPTS, probeLoop, hr,
      RETRY_ATTEMPTS, RETRY_DELAY, hf 0 (by omega)]
  · simp [test_connection, range_RETRY_ATTEMPTS, probeLoop, hr,
      RETRY_ATTEMPTS, RETRY_DELAY, hf 0 (by omega), hf 1 (by omega)]

/-- Witness for C8: a 404 on the first attempt gives `False`, 1 attempt,
no delay. -/
theorem C8_witness :
    test_connection (fun _ => ProbeEvent.response 404)
      = ⟨decide ((404 : Nat) = 200), 0 + 1, 0 * RETRY_DELAY⟩ :=
  C8_probe_response_immediate 0 (by decide) _ 404 (fun i hi => absurd hi (by omega)) rfl

/-- Counterexample to claim C1 as stated: a dispatch initiated while
`api_status` is `False` (Disconnected) is NOT a transcript no-op — the user
message is appended (lines 226-231 run before the status check at line 234),
so the transcript changes. -/
theorem C1_counterexample :
    (dispatch ⟨[], "", false, []⟩ "hello" "t1" "t2"
        (fun _ => SendEvent.requestExc)).state.messages
      ≠ ([] : List ChatMessage) := by
  decide

/-- Claim C1 amended: a dispatch initiated while `api_status` is `False`
makes no `send_message` call and appends no Assistant message, but it DOES
append the User message to the transcript before the status check; nothing
else in the session state changes. -/
theorem C1_disconnected_no_send (st : SessionState) (prompt ts1 ts2 : String)
    (events : Nat → SendEvent) (h : st.api_status = false) :
    dispatch st prompt ts1 ts2 events =
      ⟨{ st with messages := st.messages ++ [⟨"user", prompt, ts1⟩] }, false⟩ := by
  simp [dispatch, h]

/-- Witness for the amended C1 at a concrete disconnected state. -/
theorem C1_witness :
    dispatch ⟨[], "", false, []⟩ "hello" "t1" "t2" (fun _ => SendEvent.requestExc)
      = ⟨⟨[⟨"user", "hello", "t1"⟩], "", false, []⟩, false⟩ :=
  C1_disconnected_no_send ⟨[], "", false, []⟩ "hello" "t1" "t2"
    (fun _ => SendEvent.requestExc) rfl

/-- Claim C7: when `send_message` returns an error dict, the dispatch leaves
`api_status` (ConnectionStatus), `api_url` and `customer_info` exactly as
they were — only `messages` changes, gaining the User message and one
Assistant message whose content is the error marker glyph `"🚫 "` followed
by the error text. -/
theorem C7_send_error_frame (st : SessionState) (prompt ts1 ts2 : String)
    (events : Nat → SendEvent) (e : String)
    (hconn : st.api_status = true)
    (herr : (send_message events).dict.errField = some e) :
    dispatch st prompt ts1 ts2 events =
      ⟨{ st with messages := st.messages ++
          [⟨"user", prompt, ts1⟩, ⟨"assistant", "🚫 " ++ e, ts2⟩] }, true⟩ := by
  simp [dispatch, hconn, dispatchContent, herr]

/-- Witness for C7: a send against an endpoint that always times out appends
`User:"hello"` and `Assistant:"🚫 An error occurred while communicating with
the API"`, and the state is otherwise untouched. -/
theorem C7_witness :
    dispatch ⟨[], "http://x", true, []⟩ "hello" "t1" "t2" (fun _ => SendEvent.requestExc)
      = ⟨⟨[⟨"user", "hello", "t1"⟩,
           ⟨"assistant", "🚫 " ++ DEFAULT_ERROR_MESSAGE, "t2"⟩],
          "http://x", true, []⟩, true⟩ :=
  C7_send_error_frame ⟨[], "http://x", true, []⟩ "hello" "t1" "t2"
    (fun _ => SendEvent.requestExc) DEFAULT_ERROR_MESSAGE rfl rfl

/-- The head of `dropWhile p l`, when it exists, does not satisfy `p`. -/
theorem head_dropWhile_not (p : Char → Bool) (l : List Char) (a : Char)
    (h : (l.dropWhile p).head? = some a) : p a = false := by
  induction l with
  | nil => simp [List.dropWhile] at h
  | cons c cs ih =>
    rw [List.dropWhile_cons] at h
    by_cases hc : p c
    · rw [if_pos hc] at h
      exact ih h
    · rw [if_neg hc] at h
      simp only [List.head?_cons, Option.some.injEq] at h
      rw [← h]
      exact Bool.eq_false_iff.mpr hc

/-- Claim C9: `APIClient.__init__` normalizes the configured base URL by
stripping all trailing `'/'` characters, the request URLs are exactly the
normalized base followed by `"/test"` resp. `"/response"`, and the
normalized base never ends in `'/'` (so there is no doubled slash at the
join). -/
theorem C9_url_normalization (base sid : String) :
    (APIClient.init base sid).testUrl = rstripSlashes base ++ "/test" ∧
    (APIClient.init base sid).responseUrl = rstripSlashes base ++ "/response" ∧
    ((rstripSlashes base).data.getLast?.all (fun c => !(c == '/'))) = true := by
  refine ⟨rfl, rfl, ?_⟩
  rw [rstripSlashes]
  cases hl : ((base.data.reverse.dropWhile (fun c => c == '/')).reverse).getLast? with
  | none => simp [hl]
  | some a =>
    rw [List.getLast?_reverse] at hl
    have := head_dropWhile_not _ _ _ hl
    simp [hl, this]

/-- Witness for C9 at a concrete base URL with trailing slashes. -/
theorem C9_witness :
    (APIClient.init "http://x//" "sid").testUrl = rstripSlashes "http://x//" ++ "/test" ∧
    (APIClient.init "http://x//" "sid").responseUrl = rstripSlashes "http://x//" ++ "/response" ∧
    ((rstripSlashes "http://x//").data.getLast?.all (fun c => !(c == '/'))) = true :=
  C9_url_normalization "http://x//" "sid"

/-- A `done` step of the send loop always carries a singleton dict: either
`{"response": v}` or `{"error": m}`. -/
theorem send_attempt_done_shape (e : SendEvent) (d : SendDict)
    (h : send_attempt e = AttemptStep.done d) :
    (∃ v, d = respDict v) ∨ (∃ m, d = errDict m) := by
  cases e with
  | requestExc => simp [send_attempt] at h
  | otherExc msg =>
    simp only [send_attempt, AttemptStep.done.injEq] at h
    exact Or.inr ⟨_, h.symm⟩
  | response status body =>
    by_cases hs : 400 ≤ status ∧ status < 600
    · simp [send_attempt, hs] at h
    · cases body with
      | invalid msg =>
        simp only [send_attempt, if_neg hs, AttemptStep.done.injEq] at h
        exact Or.inr ⟨_, h.symm⟩
      | obj fields =>
        simp only [send_attempt, if_neg hs] at h
        cases hres : fields.lookup "result" with
        | some r =>
          rw [hres] at h
          simp only [AttemptStep.done.injEq] at h
          exact Or.inl ⟨_, h.symm⟩
        | none =>
          rw [hres] at h
          simp only [AttemptStep.done.injEq] at h
          exact Or.inr ⟨_, h.symm⟩

/-- For any attempt indices, the send loop returns a singleton dict. -/
theorem sendLoop_dict_shape (events : Nat → SendEvent) (l : List Nat) :
    (∃ v, (sendLoop events l).dict = respDict v) ∨
    (∃ m, (sendLoop events l).dict = errDict m) := by
  induction l with
  | nil => exact Or.inr ⟨DEFAULT_ERROR_MESSAGE, rfl⟩
  | cons a rest ih =>
    cases hstep : send_attempt (events a) with
    | retry => simpa [sendLoop, hstep] using ih
    | done d =>
      rcases send_attempt_done_shape (events a) d hstep with ⟨v, hv⟩ | ⟨m, hm⟩
      · exact Or.inl ⟨v, by simp [sendLoop, hstep, hv]⟩
      · exact Or.inr ⟨m, by simp [sendLoop, hstep, hm]⟩

/-- Claim C10: the dict returned by `send_message` always holds exactly one
of the keys `"response"` and `"error"` — never both and never neither — and
when it holds `"response"`, the dispatch content is that value, so the
`.get` fallback text `"No response received"` at line 245 is unreachable. -/
theorem C10_exactly_one_key (events : Nat → SendEvent) :
    ((send_message events).dict.errField = none ∧
      ∃ v, (send_message events).dict.respField = some v ∧
        dispatchContent (send_message events).dict = v) ∨
    ((send_message events).dict.respField = none ∧
      ∃ m, (send_message events).dict.errField = some m) := by
  rcases sendLoop_dict_shape events (List.range RETRY_ATTEMPTS) with ⟨v, hv⟩ | ⟨m, hm⟩
  · refine Or.inl ?_
    rw [send_message, hv]
    exact ⟨rfl, v, rfl, rfl⟩
  · refine Or.inr ?_
    rw [send_message, hm]
    exact ⟨rfl, m, rfl⟩

end DevFrontend
